import Mathlib

/-!
Verification of the `Animatable` side-scrolling element (src/animatable.py).

Shallow embedding of the `Animatable` class: a side-scrolling pygame surface
with lazy target-X resolution, per-frame position update, wrap-around
looping with a duplicate draw, and a kill/dismiss lifecycle.

Widths and heights (surface and screen sizes) are natural numbers; horizontal
and vertical positions and the speed are integers (Python floor division
`//` on non-negative operands agrees with `Nat` division, so all divisions
below are faithful to the source).  A draw command (`screen.blit`) is
recorded as the `(x, y)` position at which it blits the surface of the
element.
-/

/-- The four target-X locations an item can be steered toward
(`class TargetXLocation(Enum)` in the source). -/
inductive TargetXLocation where
  | CENTERED
  | RIGHT
  | LEFT
  | OFFSCREEN
  deriving DecidableEq, Repr

/-- The mutable state of one `Animatable`: surface size, current position,
wanted-X enum and its lazily resolved cache, vertical position, speed, and
the `alive` / `loop` flags. -/
structure Animatable where
  w : ℕ
  h : ℕ
  currX : ℤ
  wantedXEnum : TargetXLocation
  wantedX : Option ℤ
  currY : ℤ
  speed : ℤ
  alive : Bool
  loop : Bool
  deriving DecidableEq, Repr

namespace Animatable

/-- Constructor `Animatable.__init__`: stores the surface size and positions,
leaves the wanted X unresolved (`None`), and for looping items reduces the
speed by one when it exceeds 1 ("Looped items move a bit slower"). -/
def init (surfaceW surfaceH : ℕ) (currX : ℤ) (wantedXEnum : TargetXLocation)
    (currY : ℤ) (speed : ℤ) (loop : Bool) : Animatable :=
  { w := surfaceW
    h := surfaceH
    currX := currX
    wantedXEnum := wantedXEnum
    wantedX := none
    currY := currY
    speed := if loop then (if speed > 1 then speed - 1 else speed) else speed
    alive := true
    loop := loop }

/-- The result of one `animate` call: the returned boolean, the updated
element state, and the list of draw commands (blit positions) emitted. -/
structure AnimResult where
  done : Bool
  state : Animatable
  draws : List (ℤ × ℤ)
  deriving DecidableEq, Repr

/-- Operation `Animatable.animate(screen)`: resolves the wanted X if unresolved, moves
the item (one-directional step toward the target when not looping,
unconditional decrement with wrap-back when looping and alive), blits the
surface, blits a second copy for live looping items occupying less than a
third of the screen, and returns whether the item is alive and fully off the
left edge.  `screenH` is read but unused, exactly as in the source. -/
def animate (a : Animatable) (screenW screenH : ℕ) : AnimResult :=
  let third : ℕ := screenW / 3
  let wantedX : ℤ :=
    match a.wantedX with
    | some x => x
    | none =>
      match a.wantedXEnum with
      | TargetXLocation.CENTERED => ((screenW / 2 : ℕ) : ℤ) - ((a.w / 2 : ℕ) : ℤ)
      | TargetXLocation.RIGHT => (screenW : ℤ) - ((a.w : ℤ) + 50)
      | TargetXLocation.LEFT => 50
      | TargetXLocation.OFFSCREEN => -((a.w : ℤ) + 50)
  let currX : ℤ :=
    if a.loop = false then
      if wantedX < a.currX then a.currX - a.speed else a.currX
    else
      let x := a.currX - a.speed
      if x < -(a.w : ℤ) ∧ a.alive = true then x + (a.w : ℤ) + 2 * (third : ℤ)
      else x
  let primary : List (ℤ × ℤ) := [(currX, a.currY)]
  let draws : List (ℤ × ℤ) :=
    if a.loop = true ∧ a.alive = true ∧ currX + (a.w : ℤ) < (third : ℤ) then
      primary ++ [(currX + (a.w : ℤ) + 2 * (third : ℤ), a.currY)]
    else primary
  { done := a.alive && decide (currX < -(a.w : ℤ))
    state := { a with currX := currX, wantedX := some wantedX }
    draws := draws }

/-- Operation `Animatable.set_speed(newspeed)`: unconditional replacement. -/
def set_speed (a : Animatable) (newspeed : ℤ) : Animatable :=
  { a with speed := newspeed }

/-- Operation `Animatable.kill()`: marks the item dead, retargets it off-screen and
invalidates the resolved X.  (The source also re-reads the surface size into
local variables, which has no effect on the state.) -/
def kill (a : Animatable) : Animatable :=
  { a with alive := false
           wantedXEnum := TargetXLocation.OFFSCREEN
           wantedX := none }

/-- Iterated animation: the element state after `n` successive `animate`
calls against a fixed screen size (returned booleans and draws discarded). -/
def animateIter (a : Animatable) (screenW screenH : ℕ) : ℕ → Animatable
  | 0 => a
  | n + 1 => (animate (animateIter a screenW screenH n) screenW screenH).state

/-- The target-position formula exactly as the spec states it (§4.1
`resolveTarget`): Centered is half the viewport minus half the bitmap, Right
keeps a 50px margin from the right edge, Left is the fixed offset 50,
Offscreen is fully outside on the left. -/
def specResolveTarget (kind : TargetXLocation) (viewportWidth bitmapWidth : ℕ) : ℤ :=
  match kind with
  | TargetXLocation.CENTERED =>
      ((viewportWidth / 2 : ℕ) : ℤ) - ((bitmapWidth / 2 : ℕ) : ℤ)
  | TargetXLocation.RIGHT => (viewportWidth : ℤ) - ((bitmapWidth : ℤ) + 50)
  | TargetXLocation.LEFT => 50
  | TargetXLocation.OFFSCREEN => -((bitmapWidth : ℤ) + 50)

/-- One animate call never changes the surface width. -/
theorem animate_state_w (a : Animatable) (sW sH : ℕ) :
    (animate a sW sH).state.w = a.w := rfl

/-- One animate call never changes the alive flag. -/
theorem animate_state_alive (a : Animatable) (sW sH : ℕ) :
    (animate a sW sH).state.alive = a.alive := rfl

/-- One animate call never changes the loop flag. -/
theorem animate_state_loop (a : Animatable) (sW sH : ℕ) :
    (animate a sW sH).state.loop = a.loop := rfl

/-- One animate call never changes the speed. -/
theorem animate_state_speed (a : Animatable) (sW sH : ℕ) :
    (animate a sW sH).state.speed = a.speed := rfl

/-- An already resolved wanted X is kept as is by animate. -/
theorem animate_wantedX_of_some (a : Animatable) (sW sH : ℕ) (x : ℤ)
    (h : a.wantedX = some x) : (animate a sW sH).state.wantedX = some x := by
  simp [animate, h]

/-- An unresolved wanted X is resolved by animate to exactly the formula of
the spec, evaluated at the screen width of this call. -/
theorem animate_wantedX_of_none (a : Animatable) (sW sH : ℕ)
    (h : a.wantedX = none) :
    (animate a sW sH).state.wantedX =
      some (specResolveTarget a.wantedXEnum sW a.w) := by
  cases hk : a.wantedXEnum <;> simp [animate, h, hk, specResolveTarget]

/-- Iterated animation never changes the alive flag. -/
theorem animateIter_alive (a : Animatable) (sW sH : ℕ) :
    ∀ n, (animateIter a sW sH n).alive = a.alive
  | 0 => rfl
  | n + 1 => by
    rw [animateIter, animate_state_alive, animateIter_alive a sW sH n]

/-- Iterated animation never changes the loop flag. -/
theorem animateIter_loop (a : Animatable) (sW sH : ℕ) :
    ∀ n, (animateIter a sW sH n).loop = a.loop
  | 0 => rfl
  | n + 1 => by
    rw [animateIter, animate_state_loop, animateIter_loop a sW sH n]

/-- Iterated animation never changes the speed. -/
theorem animateIter_speed (a : Animatable) (sW sH : ℕ) :
    ∀ n, (animateIter a sW sH n).speed = a.speed
  | 0 => rfl
  | n + 1 => by
    rw [animateIter, animate_state_speed, animateIter_speed a sW sH n]

/-- Iterated animation never changes the surface width. -/
theorem animateIter_w (a : Animatable) (sW sH : ℕ) :
    ∀ n, (animateIter a sW sH n).w = a.w
  | 0 => rfl
  | n + 1 => by
    rw [animateIter, animate_state_w, animateIter_w a sW sH n]

/-- A resolved wanted X stays resolved to the same value over iteration. -/
theorem animateIter_wantedX (a : Animatable) (sW sH : ℕ) (x : ℤ)
    (h : a.wantedX = some x) :
    ∀ n, (animateIter a sW sH n).wantedX = some x
  | 0 => h
  | n + 1 => by
    rw [animateIter]
    exact animate_wantedX_of_some _ _ _ _ (animateIter_wantedX a sW sH x h n)

/-- Position update of a non-looping item with resolved target `t`: one step
toward the target when strictly right of it, otherwise unchanged. -/
theorem nonloop_currX (a : Animatable) (sW sH : ℕ) (t : ℤ)
    (hl : a.loop = false) (hw : a.wantedX = some t) :
    (animate a sW sH).state.currX =
      if t < a.currX then a.currX - a.speed else a.currX := by
  simp [animate, hl, hw]

/-- C2: a single animate call returns true if and only if, after the position
update of this frame, the element is alive and its X position is strictly
left of minus the bitmap width.  The equation holds for every state, so the
condition is evaluated identically in looping and non-looping mode. -/
theorem C2_done_iff_alive_offleft (a : Animatable) (sW sH : ℕ) :
    (animate a sW sH).done = true ↔
      ((animate a sW sH).state.alive = true ∧
        (animate a sW sH).state.currX < -(((animate a sW sH).state.w : ℕ) : ℤ)) := by
  rw [animate_state_alive, animate_state_w]
  simp only [animate, Bool.and_eq_true, decide_eq_true_eq]

/-- C4: the draw commands of one animate call: exactly two commands, the
second at `(positionX + bitmapWidth + 2 * (viewportWidth / 3), positionY)`,
if and only if the element is looping, alive, and after the update
`positionX + bitmapWidth < viewportWidth / 3`; in every other case exactly
one command, at `(positionX, positionY)`. -/
theorem C4_draw_commands (a : Animatable) (sW sH : ℕ) :
    (animate a sW sH).draws =
      if a.loop = true ∧ a.alive = true ∧
          (animate a sW sH).state.currX + (a.w : ℤ) < ((sW / 3 : ℕ) : ℤ) then
        [((animate a sW sH).state.currX, a.currY),
         ((animate a sW sH).state.currX + (a.w : ℤ) + 2 * ((sW / 3 : ℕ) : ℤ),
          a.currY)]
      else
        [((animate a sW sH).state.currX, a.currY)] := rfl

/-- C5: when the wanted X is unresolved, animate resolves it by the exact
per-kind formula of the spec applied to the current viewport width; when it
is already resolved it is not recomputed. -/
theorem C5_resolution (a : Animatable) (sW sH : ℕ) :
    ((a.wantedX = none →
        (animate a sW sH).state.wantedX =
          some (specResolveTarget a.wantedXEnum sW a.w)) ∧
      ∀ x : ℤ, a.wantedX = some x →
        (animate a sW sH).state.wantedX = some x) :=
  ⟨fun h => animate_wantedX_of_none a sW sH h,
   fun x h => animate_wantedX_of_some a sW sH x h⟩

/-- C5 witness: with viewport width 800 and bitmap width 100 the four target
kinds resolve to 350, 650, 50 and -150. -/
theorem C5_resolution_witness :
    (animate (init 100 100 500 TargetXLocation.CENTERED 0 5 false) 800 600).state.wantedX
        = some 350 ∧
    (animate (init 100 100 500 TargetXLocation.RIGHT 0 5 false) 800 600).state.wantedX
        = some 650 ∧
    (animate (init 100 100 500 TargetXLocation.LEFT 0 5 false) 800 600).state.wantedX
        = some 50 ∧
    (animate (init 100 100 500 TargetXLocation.OFFSCREEN 0 5 false) 800 600).state.wantedX
        = some (-150) :=
  ⟨((C5_resolution _ 800 600).1 rfl).trans (by decide),
   ((C5_resolution _ 800 600).1 rfl).trans (by decide),
   ((C5_resolution _ 800 600).1 rfl).trans (by decide),
   ((C5_resolution _ 800 600).1 rfl).trans (by decide)⟩

/-- C7: for a positive constructor speed argument, looping construction
stores the speed reduced by 1 with a floor at 1 (so the stored speed is
always at least 1), while non-looping construction stores it unchanged. -/
theorem C7_constructor_speed (surfaceW surfaceH : ℕ) (currX : ℤ)
    (k : TargetXLocation) (currY speed : ℤ) (hs : 0 < speed) :
    ((init surfaceW surfaceH currX k currY speed true).speed
        = max (speed - 1) 1 ∧
      1 ≤ (init surfaceW surfaceH currX k currY speed true).speed ∧
      (init surfaceW surfaceH currX k currY speed false).speed = speed) := by
  refine ⟨?_, ?_, rfl⟩ <;> simp only [init] <;> split_ifs with h <;> omega

/-- C7 witness: looping construction with speed 5 stores 4, with speed 1
stores 1, and non-looping construction with speed 5 stores 5. -/
theorem C7_constructor_speed_witness :
    (init 100 100 0 TargetXLocation.CENTERED 0 5 true).speed = 4 ∧
    (init 100 100 0 TargetXLocation.CENTERED 0 1 true).speed = 1 ∧
    (init 100 100 0 TargetXLocation.CENTERED 0 5 false).speed = 5 :=
  ⟨((C7_constructor_speed 100 100 0 TargetXLocation.CENTERED 0 5 (by decide)).1).trans
      (by decide),
   ((C7_constructor_speed 100 100 0 TargetXLocation.CENTERED 0 1 (by decide)).1).trans
      (by decide),
   (C7_constructor_speed 100 100 0 TargetXLocation.CENTERED 0 5 (by decide)).2.2⟩

/-- C10: animate mutates only the current X and the resolved wanted X
(surface size, Y position, target kind, speed, alive and loop flags are
unchanged), and kill mutates only the alive flag, the target kind and the
resolved wanted X (in particular, despite the source comment about speeding
the item up, kill leaves speed, current X and Y unchanged). -/
theorem C10_frame_effects (a : Animatable) (sW sH : ℕ) :
    ((animate a sW sH).state.w = a.w ∧
      (animate a sW sH).state.h = a.h ∧
      (animate a sW sH).state.currY = a.currY ∧
      (animate a sW sH).state.wantedXEnum = a.wantedXEnum ∧
      (animate a sW sH).state.speed = a.speed ∧
      (animate a sW sH).state.alive = a.alive ∧
      (animate a sW sH).state.loop = a.loop ∧
      (kill a).w = a.w ∧
      (kill a).h = a.h ∧
      (kill a).currX = a.currX ∧
      (kill a).currY = a.currY ∧
      (kill a).speed = a.speed ∧
      (kill a).loop = a.loop ∧
      (kill a).alive = false ∧
      (kill a).wantedXEnum = TargetXLocation.OFFSCREEN ∧
      (kill a).wantedX = none) :=
  ⟨rfl, rfl, rfl, rfl, rfl, rfl, rfl, rfl, rfl, rfl, rfl, rfl, rfl, rfl,
   rfl, rfl⟩

/-- Position update of a live looping item: unconditional decrement by the
speed, with a wrap back by `bitmapWidth + 2 * (screenW / 3)` when the
decremented position falls below minus the bitmap width. -/
theorem loop_currX (a : Animatable) (sW sH : ℕ)
    (ha : a.alive = true) (hl : a.loop = true) :
    (animate a sW sH).state.currX =
      if a.currX - a.speed < -((a.w : ℕ) : ℤ) then
        a.currX - a.speed + (a.w : ℤ) + 2 * ((sW / 3 : ℕ) : ℤ)
      else
        a.currX - a.speed := by
  simp [animate, ha, hl]

/-- A dead element can never make animate return true, because the
completion check of the source requires `self.alive == True`. -/
theorem animate_done_of_dead (a : Animatable) (sW sH : ℕ)
    (h : a.alive = false) : (animate a sW sH).done = false := by
  simp [animate, h]

/-- C1: contrary to the claim, after kill the element can never signal
completion: every subsequent animate call returns false, including (as the
second conjunct shows on a concrete run) at frames where the X position is
already strictly left of minus the bitmap width.  The completion check of
the source requires the element to be alive, while kill sets alive to
false. -/
theorem C1_kill_never_signals :
    ((∀ (a : Animatable) (sW sH n : ℕ),
        (animate (animateIter (kill a) sW sH n) sW sH).done = false) ∧
      (animate
          (animateIter (kill (init 100 100 500 TargetXLocation.CENTERED 0 100 false))
            800 600 7) 800 600).state.currX < -100 ∧
      (animate
          (animateIter (kill (init 100 100 500 TargetXLocation.CENTERED 0 100 false))
            800 600 7) 800 600).done = false) := by
  refine ⟨fun a sW sH n => ?_, by decide, by decide⟩
  apply animate_done_of_dead
  rw [animateIter_alive]
  rfl

/-- C3: a live looping element decrements its X position by its speed on
every animate call regardless of the resolved target, and when the
decremented position falls below minus the bitmap width the same call adds
`bitmapWidth + 2 * (viewportWidth / 3)` back. -/
theorem C3_loop_step (a : Animatable) (sW sH : ℕ)
    (ha : a.alive = true) (hl : a.loop = true) :
    (animate a sW sH).state.currX =
      if a.currX - a.speed < -((a.w : ℕ) : ℤ) then
        a.currX - a.speed + (a.w : ℤ) + 2 * ((sW / 3 : ℕ) : ℤ)
      else
        a.currX - a.speed :=
  loop_currX a sW sH ha hl

/-- C3 witness: bitmap width 100, viewport width 300, position -98, speed 5:
the decremented position -103 falls below -100 and wraps to
-103 + 100 + 200 = 197. -/
theorem C3_loop_step_witness :
    (animate
        (Animatable.mk 100 100 (-98) TargetXLocation.CENTERED (some 350) 0 5 true true)
        300 200).state.currX = 197 :=
  (C3_loop_step
      (Animatable.mk 100 100 (-98) TargetXLocation.CENTERED (some 350) 0 5 true true)
      300 200 rfl rfl).trans (by decide)

/-- C8 counterexample: a live looping element CAN make animate return true:
with bitmap width 100, viewport width 300, speed 5 and starting position
-500, the wrap adds 300 but leaves the position at -205, still below -100,
so the completion check fires. -/
theorem C8_counterexample :
    ((Animatable.mk 100 100 (-500) TargetXLocation.CENTERED (some 350) 0 5 true true).alive
        = true ∧
      (Animatable.mk 100 100 (-500) TargetXLocation.CENTERED (some 350) 0 5 true true).loop
        = true ∧
      (animate
          (Animatable.mk 100 100 (-500) TargetXLocation.CENTERED (some 350) 0 5 true true)
          300 200).done = true) := by
  decide

/-- C8 amended: a live looping element whose X position is at least minus
the bitmap width before the call, and whose speed is at most
`bitmapWidth + 2 * (viewportWidth / 3)`, never makes animate return true:
the wrap restores the position to at least minus the bitmap width before the
completion check fires. -/
theorem C8_amended_loop_no_signal (a : Animatable) (sW sH : ℕ)
    (ha : a.alive = true) (hl : a.loop = true)
    (hx : -((a.w : ℕ) : ℤ) ≤ a.currX)
    (hs : a.speed ≤ (a.w : ℤ) + 2 * ((sW / 3 : ℕ) : ℤ)) :
    (animate a sW sH).done = false := by
  have hc := loop_currX a sW sH ha hl
  have hge : -((a.w : ℕ) : ℤ) ≤ (animate a sW sH).state.currX := by
    rw [hc]
    split_ifs with h <;> omega
  simp only [animate, Bool.and_eq_false_iff, decide_eq_false_iff_not, not_lt]
  right
  simpa [animate] using hge

/-- C8 amended witness: a live looping element at position 500 with speed 5,
bitmap width 100 and viewport width 300 satisfies the bounds and its animate
call returns false. -/
theorem C8_amended_loop_no_signal_witness :
    (animate
        (Animatable.mk 100 100 500 TargetXLocation.CENTERED (some 350) 0 5 true true)
        300 200).done = false :=
  C8_amended_loop_no_signal
    (Animatable.mk 100 100 500 TargetXLocation.CENTERED (some 350) 0 5 true true)
    300 200 rfl rfl (by decide) (by decide)

/-- C9 counterexample: the cached resolved target IS stale across a viewport
resize.  An element targeted CENTERED resolves 350 against viewport width
800 on its first animate call; a second animate call against viewport width
400 still uses and keeps the cached 350, while the formula for the current
width 400 gives 150. -/
theorem C9_counterexample :
    ((animate (animate (init 100 100 500 TargetXLocation.CENTERED 0 5 false) 800 600).state
        400 300).state.wantedX = some 350 ∧
      specResolveTarget TargetXLocation.CENTERED 400 100 = 150 ∧
      (350 : ℤ) ≠ 150) := by
  decide

/-- C9 amended: the resolved target X is computed from the viewport width
current at the call that resolves it (the first animate call after
construction or after kill), and is then cached unchanged by later calls
even when the viewport width differs. -/
theorem C9_amended_resolution_cached (a : Animatable) (sW sH sW2 sH2 : ℕ)
    (h : a.wantedX = none) :
    ((animate a sW sH).state.wantedX =
        some (specResolveTarget a.wantedXEnum sW a.w) ∧
      (animate (animate a sW sH).state sW2 sH2).state.wantedX =
        some (specResolveTarget a.wantedXEnum sW a.w)) := by
  have h1 := animate_wantedX_of_none a sW sH h
  exact ⟨h1, animate_wantedX_of_some _ sW2 sH2 _ h1⟩

/-- C9 amended witness: the CENTERED target resolves to 350 against viewport
width 800 and stays 350 across a later call against viewport width 400. -/
theorem C9_amended_resolution_cached_witness :
    ((animate (init 100 100 500 TargetXLocation.CENTERED 0 5 false) 800 600).state.wantedX
        = some 350 ∧
      (animate
          (animate (init 100 100 500 TargetXLocation.CENTERED 0 5 false) 800 600).state
          400 300).state.wantedX = some 350) := by
  have h := C9_amended_resolution_cached
    (init 100 100 500 TargetXLocation.CENTERED 0 5 false) 800 600 400 300 rfl
  exact ⟨h.1.trans (by decide), h.2.trans (by decide)⟩

/-- One non-looping animate step with a resolved target never increases the
X position when the speed is non-negative. -/
theorem nonloop_mono_step (a : Animatable) (sW sH : ℕ) (t : ℤ)
    (hl : a.loop = false) (hw : a.wantedX = some t) (hs : 0 ≤ a.speed) :
    ∀ n, (animateIter a sW sH (n + 1)).currX ≤ (animateIter a sW sH n).currX := by
  intro n
  have hbl : (animateIter a sW sH n).loop = false := by
    rw [animateIter_loop]; exact hl
  have hbw := animateIter_wantedX a sW sH t hw n
  have hbs := animateIter_speed a sW sH n
  have hstep : animateIter a sW sH (n + 1) =
      (animate (animateIter a sW sH n) sW sH).state := rfl
  rw [hstep, nonloop_currX _ sW sH t hbl hbw, hbs]
  split_ifs with h <;> omega

/-- Along the non-looping iteration, the X position either has already
reached the target or has decreased by at least one per step. -/
theorem nonloop_progress (a : Animatable) (sW sH : ℕ) (t : ℤ)
    (hl : a.loop = false) (hw : a.wantedX = some t) (hs : 1 ≤ a.speed) :
    ∀ n : ℕ, (animateIter a sW sH n).currX ≤ t ∨
      (animateIter a sW sH n).currX ≤ a.currX - n := by
  intro n
  induction n with
  | zero => right; simp [animateIter]
  | succ n ih =>
    have hbl : (animateIter a sW sH n).loop = false := by
      rw [animateIter_loop]; exact hl
    have hbw := animateIter_wantedX a sW sH t hw n
    have hbs := animateIter_speed a sW sH n
    have hstep : animateIter a sW sH (n + 1) =
        (animate (animateIter a sW sH n) sW sH).state := rfl
    have hcur : (animateIter a sW sH (n + 1)).currX =
        if t < (animateIter a sW sH n).currX then
          (animateIter a sW sH n).currX - a.speed
        else (animateIter a sW sH n).currX := by
      rw [hstep, nonloop_currX _ sW sH t hbl hbw, hbs]
    rw [hcur]
    split_ifs with h
    · rcases ih with h1 | h2
      · left; omega
      · right; push_cast; omega
    · left; omega

/-- Once a non-looping element has reached its target, one more animate call
leaves the X position unchanged. -/
theorem nonloop_stay (a : Animatable) (sW sH : ℕ) (t : ℤ)
    (hl : a.loop = false) (hw : a.wantedX = some t) (n : ℕ)
    (h : (animateIter a sW sH n).currX ≤ t) :
    (animateIter a sW sH (n + 1)).currX = (animateIter a sW sH n).currX := by
  have hbl : (animateIter a sW sH n).loop = false := by
    rw [animateIter_loop]; exact hl
  have hbw := animateIter_wantedX a sW sH t hw n
  have hstep : animateIter a sW sH (n + 1) =
      (animate (animateIter a sW sH n) sW sH).state := rfl
  rw [hstep, nonloop_currX _ sW sH t hbl hbw, if_neg (by omega)]

/-- C6: a non-looping element with resolved target `t` and positive speed
moves down by exactly its speed while strictly right of the target and is
otherwise unchanged; the X position is monotonically non-increasing over
repeated calls, eventually reaches a value at most `t`, and from then on is
a fixed point of every subsequent call. -/
theorem C6_nonloop_dynamics (a : Animatable) (sW sH : ℕ) (t : ℤ)
    (hl : a.loop = false) (hw : a.wantedX = some t) (hs : 1 ≤ a.speed) :
    ((t < a.currX → (animate a sW sH).state.currX = a.currX - a.speed) ∧
      (a.currX ≤ t → (animate a sW sH).state.currX = a.currX) ∧
      (∀ n, (animateIter a sW sH (n + 1)).currX ≤ (animateIter a sW sH n).currX) ∧
      ∃ n : ℕ, ∀ m, n ≤ m →
        (animateIter a sW sH m).currX ≤ t ∧
        (animateIter a sW sH (m + 1)).currX = (animateIter a sW sH m).currX) := by
  refine ⟨?_, ?_, nonloop_mono_step a sW sH t hl hw (by omega), ?_⟩
  · intro h
    rw [nonloop_currX a sW sH t hl hw, if_pos h]
  · intro h
    rw [nonloop_currX a sW sH t hl hw, if_neg (by omega)]
  · refine ⟨(a.currX - t).toNat, ?_⟩
    have hmono : Antitone fun n => (animateIter a sW sH n).currX :=
      antitone_nat_of_succ_le (nonloop_mono_step a sW sH t hl hw (by omega))
    have hn0 : (animateIter a sW sH (a.currX - t).toNat).currX ≤ t := by
      rcases nonloop_progress a sW sH t hl hw hs (a.currX - t).toNat with h1 | h2
      · exact h1
      · omega
    intro m hm
    have hmle : (animateIter a sW sH m).currX ≤ t := le_trans (hmono hm) hn0
    exact ⟨hmle, nonloop_stay a sW sH t hl hw m hmle⟩

/-- C6 witness: a non-looping element at X position 500 with resolved target
350 and speed 5 is strictly right of its target and one animate call moves
it to 495. -/
theorem C6_nonloop_dynamics_witness :
    ((350 : ℤ) < 500 ∧
      (animate
          (Animatable.mk 100 100 500 TargetXLocation.CENTERED (some 350) 0 5 true false)
          800 600).state.currX = 495) :=
  ⟨by decide,
   ((C6_nonloop_dynamics
        (Animatable.mk 100 100 500 TargetXLocation.CENTERED (some 350) 0 5 true false)
        800 600 350 rfl rfl (by decide)).1 (by decide)).trans (by decide)⟩

end Animatable
